import Mathlib

/-!
# Verification of the fiber-audio-player core controllers

Shallow embedding of the two core controllers of the repository:

* the streaming payment billing engine (`src/lib/streaming-payment.ts`,
  class `StreamingPaymentService`), and
* the channel lifecycle controller (`src/hooks/use-fiber-node.ts`, plus the
  alternative revision of the same hook present in the repository as an
  unnamed source file, referred to here with the `p4` names).

Modelling conventions:

* JavaScript numbers (wall-clock milliseconds, fractional seconds, CKB
  rates) are modelled as rationals `ℚ`; `bigint` shannon amounts as `ℤ`.
* Every asynchronous network call is modelled by an explicit input
  (`SendOutcome`, channel-list observations) or by gateway data, and the
  calls a code path issues are returned explicitly (`RpcCall` lists or
  call counters), so that "issues no network call" is a provable fact.
* `setState`-style React state is collected into one record per controller
  and updated functionally, mirroring the source mutation order.
-/

/-- Status of one emitted payment tick (source: `PaymentTick.status`,
`'pending' | 'success' | 'failed'`). -/
inductive TickStatus where
  | pending
  | success
  | failed
deriving DecidableEq, Repr

/-- Outcome of one awaited `sendPayment`/`keysend` RPC: either the promise
resolves with a `PaymentResult` record (payment hash, status string,
nullable `failed_error`) or it throws, in which case we carry the message
string the catch handler extracts. -/
inductive SendOutcome where
  | result (paymentHash : String) (status : String) (failedError : Option String)
  | thrown (msg : String)
deriving DecidableEq, Repr

/-- The send is a failure for the tick: either the resolved status is not
the string `"Success"`, or the promise threw. -/
def sendFails (s : SendOutcome) : Prop :=
  match s with
  | SendOutcome.result _ status _ => status ≠ "Success"
  | SendOutcome.thrown _ => True

instance : DecidablePred sendFails := by
  intro s
  cases s with
  | result h status f => exact inferInstanceAs (Decidable (status ≠ "Success"))
  | thrown m => exact inferInstanceAs (Decidable True)

/-- One emitted `PaymentTick` record (source: interface `PaymentTick`). -/
structure PaymentTick where
  timestamp : ℚ
  amountShannon : ℤ
  totalPaidShannon : ℤ
  paymentHash : Option String
  status : TickStatus
  error : Option String
deriving DecidableEq, Repr

/-- The resolved configuration held by `StreamingPaymentService`
(`Required<StreamingPaymentConfig>` after the constructor fills defaults). -/
structure StreamingPaymentConfig where
  rpcUrl : String
  recipientPubkey : String
  ratePerSecond : ℚ
  paymentIntervalMs : ℤ
  currency : String
deriving DecidableEq, Repr

/-- The raw constructor argument (interface `StreamingPaymentConfig`):
`paymentIntervalMs` and `currency` are optional. -/
structure StreamingPaymentConfigInput where
  rpcUrl : String
  recipientPubkey : String
  ratePerSecond : ℚ
  paymentIntervalMs : Option ℤ
  currency : Option String
deriving DecidableEq, Repr

/-- The `StreamingPaymentService` constructor. It performs no validation:
it copies the config, replacing `paymentIntervalMs` by the 5000 ms default
when the field is absent — or when it is `0`, since JavaScript
`config.paymentIntervalMs || 5000` treats `0` as falsy — and `currency` by
`'Fibd'` when absent. It cannot throw. -/
def mkConfig (c : StreamingPaymentConfigInput) : StreamingPaymentConfig :=
  { rpcUrl := c.rpcUrl
    recipientPubkey := c.recipientPubkey
    ratePerSecond := c.ratePerSecond
    paymentIntervalMs :=
      match c.paymentIntervalMs with
      | some v => if v = 0 then 5000 else v
      | none => 5000
    currency := c.currency.getD "Fibd" }

/-- Mutable state of a `StreamingPaymentService` instance (the private
fields of the class). `intervalArmed` models `intervalId !== null`. -/
structure BillingState where
  isStreaming : Bool
  intervalArmed : Bool
  totalPaid : ℤ
  lastPaymentTime : ℚ
  accumulatedSeconds : ℚ
deriving DecidableEq, Repr

/-- Field initializers of the class: not streaming, no timer, zero totals. -/
def initBillingState : BillingState :=
  { isStreaming := false
    intervalArmed := false
    totalPaid := 0
    lastPaymentTime := 0
    accumulatedSeconds := 0 }

/-- `ckbToShannon` from `src/lib/fiber-rpc.ts`:
`BigInt(Math.floor(ckb * 100_000_000))`. -/
def ckbToShannon (ckb : ℚ) : ℤ :=
  ⌊ckb * 100000000⌋

/-- Network calls a code path can issue, used to state "this path performs
no dry-run probe / no RPC at all". -/
inductive RpcCall where
  | listPeers
  | listChannelsAll
  | listChannelsPeer (peerId : String)
  | sendPaymentDryRun
  | keysendCall
  | openChannelCall
deriving DecidableEq, Repr

/-- `StreamingPaymentService.processPaymentTick`. Inputs: the wall clock
`now` at the tick and the outcome `send` of the `keysend` call (consumed
only when a payment is attempted). Returns the updated state and the
emitted tick, if any. -/
def processPaymentTick (cfg : StreamingPaymentConfig) (st : BillingState)
    (now : ℚ) (send : SendOutcome) : BillingState × Option PaymentTick :=
  let elapsedSeconds : ℚ := (now - st.lastPaymentTime) / 1000
  let st1 : BillingState :=
    { st with lastPaymentTime := now
              accumulatedSeconds := st.accumulatedSeconds + elapsedSeconds }
  let secondsToPay : ℤ := ⌊st1.accumulatedSeconds⌋
  if secondsToPay ≤ 0 then (st1, none)
  else
    let st2 : BillingState :=
      { st1 with accumulatedSeconds := st1.accumulatedSeconds - (secondsToPay : ℚ) }
    let amountShannon : ℤ := ckbToShannon (cfg.ratePerSecond * (secondsToPay : ℚ))
    match send with
    | SendOutcome.result h status failedError =>
      -- `if (result.failed_error) tick.error = result.failed_error;`
      -- JavaScript truthiness: null and the empty string are both falsy.
      let err : Option String :=
        match failedError with
        | some e => if e = "" then none else some e
        | none => none
      if status = "Success" then
        ({ st2 with totalPaid := st2.totalPaid + amountShannon },
         some { timestamp := now
                amountShannon := amountShannon
                totalPaidShannon := st2.totalPaid + amountShannon
                paymentHash := some h
                status := TickStatus.success
                error := err })
      else
        (st2,
         some { timestamp := now
                amountShannon := amountShannon
                totalPaidShannon := st2.totalPaid + amountShannon
                paymentHash := some h
                status := TickStatus.failed
                error := err })
    | SendOutcome.thrown msg =>
      (st2,
       some { timestamp := now
              amountShannon := amountShannon
              totalPaidShannon := st2.totalPaid + amountShannon
              paymentHash := none
              status := TickStatus.failed
              error := some msg })

/-- `StreamingPaymentService.startStreaming`: no-op when already
streaming; otherwise marks streaming, resets the clock and the
accumulator, and arms the interval timer. It issues no network calls
(the returned call list is the list of RPCs the source body performs). -/
def startStreaming (st : BillingState) (now : ℚ) : BillingState × List RpcCall :=
  if st.isStreaming then (st, [])
  else
    ({ st with isStreaming := true
               lastPaymentTime := now
               accumulatedSeconds := 0
               intervalArmed := true }, [])

/-- `StreamingPaymentService.stopStreaming`: no-op when not streaming;
otherwise clears the streaming flag, disarms the timer, runs one final
`processPaymentTick`, and finally zeroes `accumulatedSeconds`. -/
def stopStreaming (cfg : StreamingPaymentConfig) (st : BillingState)
    (now : ℚ) (send : SendOutcome) : BillingState × Option PaymentTick :=
  if st.isStreaming = false then (st, none)
  else
    let st1 : BillingState := { st with isStreaming := false, intervalArmed := false }
    let r := processPaymentTick cfg st1 now send
    ({ r.1 with accumulatedSeconds := 0 }, r.2)

/-- `StreamingPaymentService.getTotalPaid`. -/
def getTotalPaid (st : BillingState) : ℤ :=
  st.totalPaid

/-- `StreamingPaymentService.isActive`. -/
def isActive (st : BillingState) : Bool :=
  st.isStreaming

/-- `StreamingPaymentService.checkPaymentRoute`: a dry-run `sendPayment`;
returns `status !== 'Failed'`, and `false` when the call throws. -/
def svcCheckPaymentRoute (probe : SendOutcome) : Bool :=
  match probe with
  | SendOutcome.result _ status _ => status != "Failed"
  | SendOutcome.thrown _ => false

/-- A sequence of timer fires: each event carries the wall clock at the
fire and the outcome of the send, should one be attempted. Returns the
final state and the ticks emitted, in order. -/
def runTrace (cfg : StreamingPaymentConfig) :
    BillingState → List (ℚ × SendOutcome) → BillingState × List PaymentTick
  | st, [] => (st, [])
  | st, ev :: rest =>
    let r := processPaymentTick cfg st ev.1 ev.2
    let rr := runTrace cfg r.1 rest
    (rr.1, r.2.toList ++ rr.2)

section SanityChecks

/-- Concrete configuration used by witnesses: 1 CKB per second. -/
def cfgEx : StreamingPaymentConfig :=
  { rpcUrl := "http://127.0.0.1:8227"
    recipientPubkey := "03032b"
    ratePerSecond := 1
    paymentIntervalMs := 1000
    currency := "Fibd" }

example : ckbToShannon 1 = 100000000 := by norm_num [ckbToShannon]

example :
    (processPaymentTick cfgEx ((startStreaming initBillingState 0).1) 1000
      (SendOutcome.result "h1" "Success" none)).1.totalPaid = 100000000 := by
  norm_num [processPaymentTick, ckbToShannon, startStreaming, initBillingState, cfgEx]

example :
    (processPaymentTick cfgEx ((startStreaming initBillingState 0).1) 500
      (SendOutcome.result "h1" "Success" none)).2 = none := by
  norm_num [processPaymentTick, ckbToShannon, startStreaming, initBillingState, cfgEx]

end SanityChecks

/-- The total accumulated seconds a tick at wall clock `now` sees:
previous remainder plus the elapsed time since the last tick. -/
def tickAccum (st : BillingState) (now : ℚ) : ℚ :=
  st.accumulatedSeconds + (now - st.lastPaymentTime) / 1000

/-- The shannon amount a payment-attempting tick sends:
`ckbToShannon(ratePerSecond * secondsToPay)`. -/
def tickAmount (cfg : StreamingPaymentConfig) (st : BillingState) (now : ℚ) : ℤ :=
  ckbToShannon (cfg.ratePerSecond * (⌊tickAccum st now⌋ : ℚ))

lemma processPaymentTick_skip (cfg : StreamingPaymentConfig) (st : BillingState)
    (now : ℚ) (send : SendOutcome) (h : ⌊tickAccum st now⌋ ≤ 0) :
    processPaymentTick cfg st now send =
      ({ st with lastPaymentTime := now, accumulatedSeconds := tickAccum st now }, none) := by
  unfold tickAccum at h ⊢
  simp only [processPaymentTick]
  rw [if_pos h]

lemma processPaymentTick_fail (cfg : StreamingPaymentConfig) (st : BillingState)
    (now : ℚ) (send : SendOutcome) (hA : 0 < ⌊tickAccum st now⌋) (hf : sendFails send) :
    (processPaymentTick cfg st now send).1 =
      { st with lastPaymentTime := now,
                accumulatedSeconds := tickAccum st now - (⌊tickAccum st now⌋ : ℚ) }
    ∧ ∃ t, (processPaymentTick cfg st now send).2 = some t
        ∧ t.status = TickStatus.failed
        ∧ t.amountShannon = tickAmount cfg st now
        ∧ t.totalPaidShannon = st.totalPaid + tickAmount cfg st now
        ∧ t.timestamp = now := by
  have hA' : ¬ (⌊st.accumulatedSeconds + (now - st.lastPaymentTime) / 1000⌋ ≤ 0) :=
    not_le.mpr hA
  cases send with
  | result h status failedError =>
    have hs : ¬ (status = "Success") := hf
    simp only [processPaymentTick, hA', hs, if_false]
    exact ⟨by trivial, _, by trivial, by trivial, by trivial, by trivial, by trivial⟩
  | thrown msg =>
    simp only [processPaymentTick, hA', if_false]
    exact ⟨by trivial, _, by trivial, by trivial, by trivial, by trivial, by trivial⟩

lemma processPaymentTick_success (cfg : StreamingPaymentConfig) (st : BillingState)
    (now : ℚ) (h : String) (f : Option String) (hA : 0 < ⌊tickAccum st now⌋) :
    (processPaymentTick cfg st now (SendOutcome.result h "Success" f)).1 =
      { st with lastPaymentTime := now,
                accumulatedSeconds := tickAccum st now - (⌊tickAccum st now⌋ : ℚ),
                totalPaid := st.totalPaid + tickAmount cfg st now }
    ∧ ∃ t, (processPaymentTick cfg st now (SendOutcome.result h "Success" f)).2 = some t
        ∧ t.status = TickStatus.success
        ∧ t.amountShannon = tickAmount cfg st now
        ∧ t.totalPaidShannon = st.totalPaid + tickAmount cfg st now := by
  have hA' : ¬ (⌊st.accumulatedSeconds + (now - st.lastPaymentTime) / 1000⌋ ≤ 0) :=
    not_le.mpr hA
  simp only [processPaymentTick, hA', if_false, if_pos rfl]
  exact ⟨by trivial, _, by trivial, by trivial, by trivial, by trivial⟩

lemma tickAmount_nonneg (cfg : StreamingPaymentConfig) (st : BillingState) (now : ℚ)
    (hr : 0 ≤ cfg.ratePerSecond) (hA : 0 < ⌊tickAccum st now⌋) :
    0 ≤ tickAmount cfg st now := by
  unfold tickAmount ckbToShannon
  apply Int.le_floor.mpr
  push_cast
  have h1 : (0:ℚ) ≤ (⌊tickAccum st now⌋ : ℚ) := by
    exact_mod_cast hA.le
  have h2 : (0:ℚ) ≤ cfg.ratePerSecond * (⌊tickAccum st now⌋ : ℚ) := mul_nonneg hr h1
  nlinarith

lemma totalPaid_step_le (cfg : StreamingPaymentConfig) (st : BillingState)
    (now : ℚ) (send : SendOutcome) (hr : 0 ≤ cfg.ratePerSecond) :
    st.totalPaid ≤ (processPaymentTick cfg st now send).1.totalPaid := by
  rcases le_or_lt ⌊tickAccum st now⌋ 0 with hA | hA
  · rw [processPaymentTick_skip cfg st now send hA]
  · by_cases hf : sendFails send
    · rw [(processPaymentTick_fail cfg st now send hA hf).1]
    · cases send with
      | result h status f =>
        have hs : status = "Success" := by
          by_contra hc
          exact hf hc
        subst hs
        rw [(processPaymentTick_success cfg st now h f hA).1]
        have := tickAmount_nonneg cfg st now hr hA
        simp only
        omega
      | thrown msg => exact absurd trivial hf

lemma totalPaid_trace_le (cfg : StreamingPaymentConfig) (hr : 0 ≤ cfg.ratePerSecond) :
    ∀ (evs : List (ℚ × SendOutcome)) (st : BillingState),
      st.totalPaid ≤ (runTrace cfg st evs).1.totalPaid := by
  intro evs
  induction evs with
  | nil => intro st; exact le_refl _
  | cons ev rest ih =>
    intro st
    calc st.totalPaid ≤ (processPaymentTick cfg st ev.1 ev.2).1.totalPaid :=
          totalPaid_step_le cfg st ev.1 ev.2 hr
      _ ≤ (runTrace cfg (processPaymentTick cfg st ev.1 ev.2).1 rest).1.totalPaid := ih _
      _ = (runTrace cfg st (ev :: rest)).1.totalPaid := rfl

lemma send_cases (send : SendOutcome) :
    sendFails send ∨ ∃ h f, send = SendOutcome.result h "Success" f := by
  cases send with
  | result h status f =>
    by_cases hs : status = "Success"
    · exact Or.inr ⟨h, f, by rw [hs]⟩
    · exact Or.inl hs
  | thrown m => exact Or.inl trivial

lemma processPaymentTick_attempt (cfg : StreamingPaymentConfig) (st : BillingState)
    (now : ℚ) (send : SendOutcome) (hA : 0 < ⌊tickAccum st now⌋) :
    ∃ t, (processPaymentTick cfg st now send).2 = some t
      ∧ t.amountShannon = tickAmount cfg st now
      ∧ t.totalPaidShannon = st.totalPaid + tickAmount cfg st now
      ∧ ((t.status = TickStatus.success ∧
            (processPaymentTick cfg st now send).1.totalPaid =
              st.totalPaid + tickAmount cfg st now)
         ∨ (t.status = TickStatus.failed ∧
            (processPaymentTick cfg st now send).1.totalPaid = st.totalPaid)) := by
  rcases send_cases send with hf | ⟨h, f, rfl⟩
  · obtain ⟨hfst, t, ht, hstat, hamt, htot, _⟩ := processPaymentTick_fail cfg st now send hA hf
    refine ⟨t, ht, hamt, htot, Or.inr ⟨hstat, ?_⟩⟩
    rw [hfst]
  · obtain ⟨hfst, t, ht, hstat, hamt, htot⟩ := processPaymentTick_success cfg st now h f hA
    refine ⟨t, ht, hamt, htot, Or.inl ⟨hstat, ?_⟩⟩
    rw [hfst]

lemma processPaymentTick_flags (cfg : StreamingPaymentConfig) (st : BillingState)
    (now : ℚ) (send : SendOutcome) :
    (processPaymentTick cfg st now send).1.isStreaming = st.isStreaming
    ∧ (processPaymentTick cfg st now send).1.intervalArmed = st.intervalArmed := by
  rcases le_or_lt ⌊tickAccum st now⌋ 0 with hA | hA
  · rw [processPaymentTick_skip cfg st now send hA]
    exact ⟨rfl, rfl⟩
  · rcases send_cases send with hf | ⟨h, f, rfl⟩
    · rw [(processPaymentTick_fail cfg st now send hA hf).1]
      exact ⟨rfl, rfl⟩
    · rw [(processPaymentTick_success cfg st now h f hA).1]
      exact ⟨rfl, rfl⟩

/-- Concrete accrue-fail-accrue-succeed trace: two timer fires, one second
of playback each; the first send is rejected, the second succeeds. -/
def traceC1 : List (ℚ × SendOutcome) :=
  [(1000, SendOutcome.result "h1" "Failed" (some "TemporaryChannelFailure")),
   (2000, SendOutcome.result "h2" "Success" none)]

/-- Claim C2 (confirmed): for a configuration with a non-negative rate,
`totalPaid` never decreases across a tick nor across any tick sequence; it
is unchanged on a tick that emits nothing and on a `failed` tick, and it
increases by exactly the tick's amount on a `success` tick. -/
theorem claim_C2_totalPaid_monotone (cfg : StreamingPaymentConfig) (st : BillingState)
    (now : ℚ) (send : SendOutcome) (hr : 0 ≤ cfg.ratePerSecond) :
    st.totalPaid ≤ (processPaymentTick cfg st now send).1.totalPaid
    ∧ ((processPaymentTick cfg st now send).2 = none →
        (processPaymentTick cfg st now send).1.totalPaid = st.totalPaid)
    ∧ (∀ t, (processPaymentTick cfg st now send).2 = some t →
        (t.status = TickStatus.success →
          (processPaymentTick cfg st now send).1.totalPaid = st.totalPaid + t.amountShannon)
        ∧ (t.status = TickStatus.failed →
          (processPaymentTick cfg st now send).1.totalPaid = st.totalPaid))
    ∧ (∀ evs : List (ℚ × SendOutcome),
        st.totalPaid ≤ (runTrace cfg st evs).1.totalPaid) := by
  refine ⟨totalPaid_step_le cfg st now send hr, ?_, ?_,
    fun evs => totalPaid_trace_le cfg hr evs st⟩
  · intro hnone
    rcases le_or_lt ⌊tickAccum st now⌋ 0 with hA | hA
    · rw [processPaymentTick_skip cfg st now send hA]
    · obtain ⟨t, ht, _⟩ := processPaymentTick_attempt cfg st now send hA
      rw [ht] at hnone
      exact absurd hnone (by simp)
  · intro t ht
    rcases le_or_lt ⌊tickAccum st now⌋ 0 with hA | hA
    · rw [processPaymentTick_skip cfg st now send hA] at ht
      exact absurd ht (by simp)
    · obtain ⟨t', ht', hamt, _htp, hdisj⟩ := processPaymentTick_attempt cfg st now send hA
      rw [ht] at ht'
      have htt : t = t' := Option.some.inj ht'
      subst htt
      constructor
      · intro hsucc
        rcases hdisj with ⟨_, htot⟩ | ⟨hst, _⟩
        · rw [htot, hamt]
        · rw [hst] at hsucc
          exact absurd hsucc (by simp)
      · intro hfail
        rcases hdisj with ⟨hst, _⟩ | ⟨_, htot⟩
        · rw [hst] at hfail
          exact absurd hfail (by simp)
        · exact htot

/-- Witness for C2 at a concrete success tick. -/
theorem claim_C2_witness :
    (startStreaming initBillingState 0).1.totalPaid ≤
      (processPaymentTick cfgEx (startStreaming initBillingState 0).1 1000
        (SendOutcome.result "h" "Success" none)).1.totalPaid :=
  (claim_C2_totalPaid_monotone cfgEx (startStreaming initBillingState 0).1 1000
    (SendOutcome.result "h" "Success" none) (by norm_num [cfgEx])).1

/-- Claim C1 counterexample: at 1 CKB per second, accrue one second, fail,
accrue one second, succeed. The single successful tick's amount is
100000000 shannon — the second accrual alone — not the 200000000 shannon
(sum of both accruals) the claim requires; the failed first accrual is
discarded, as the final `totalPaid` shows. -/
theorem claim_C1_counterexample :
    ((runTrace cfgEx (startStreaming initBillingState 0).1 traceC1).2.filter
        (fun t => decide (t.status = TickStatus.success))).map PaymentTick.amountShannon
      = [100000000]
    ∧ (runTrace cfgEx (startStreaming initBillingState 0).1 traceC1).1.totalPaid = 100000000
    ∧ ckbToShannon (cfgEx.ratePerSecond * 1) + ckbToShannon (cfgEx.ratePerSecond * 1)
        = 200000000
    ∧ (100000000 : ℤ) ≠ 200000000 := by
  have h1 : ¬ ("Failed" = "Success") := by decide
  have h2 : ¬ ("TemporaryChannelFailure" = "") := by decide
  refine ⟨?_, ?_, ?_, by decide⟩
  · norm_num [runTrace, traceC1, processPaymentTick, ckbToShannon, startStreaming,
      initBillingState, cfgEx, h1, h2]
    decide
  · norm_num [runTrace, traceC1, processPaymentTick, ckbToShannon, startStreaming,
      initBillingState, cfgEx, h1, h2]
  · norm_num [ckbToShannon, cfgEx]

/-- Claim C1 amended (the behaviour the code actually has): a tick whose
send fails leaves `totalPaid` unchanged but consumes the billed whole
seconds — the post-state is fully characterized and records the unsent
amount nowhere, so the amount is discarded rather than retried; on the
accrue-fail-accrue-succeed trace the one successful tick's amount equals
the second accrual alone. -/
theorem claim_C1_amended (cfg : StreamingPaymentConfig) (st : BillingState)
    (now : ℚ) (send : SendOutcome) (hA : 0 < ⌊tickAccum st now⌋) (hf : sendFails send) :
    (processPaymentTick cfg st now send).1 =
      { st with lastPaymentTime := now,
                accumulatedSeconds := tickAccum st now - (⌊tickAccum st now⌋ : ℚ) }
    ∧ (∃ t, (processPaymentTick cfg st now send).2 = some t
        ∧ t.status = TickStatus.failed
        ∧ t.amountShannon = tickAmount cfg st now)
    ∧ ((runTrace cfgEx (startStreaming initBillingState 0).1 traceC1).2.filter
        (fun t => decide (t.status = TickStatus.success))).map PaymentTick.amountShannon
      = [ckbToShannon (cfgEx.ratePerSecond * 1)] := by
  obtain ⟨hfst, t, ht, hstat, hamt, _, _⟩ := processPaymentTick_fail cfg st now send hA hf
  refine ⟨hfst, ⟨t, ht, hstat, hamt⟩, ?_⟩
  have h1 : ¬ ("Failed" = "Success") := by decide
  have h2 : ¬ ("TemporaryChannelFailure" = "") := by decide
  norm_num [runTrace, traceC1, processPaymentTick, ckbToShannon, startStreaming,
    initBillingState, cfgEx, h1, h2]
  decide

/-- Witness for the amended C1 at a concrete thrown send. -/
theorem claim_C1_amended_witness :
    (processPaymentTick cfgEx (startStreaming initBillingState 0).1 1000
        (SendOutcome.thrown "network error")).1 =
      { (startStreaming initBillingState 0).1 with
          lastPaymentTime := 1000,
          accumulatedSeconds :=
            tickAccum (startStreaming initBillingState 0).1 1000 -
              ((⌊tickAccum (startStreaming initBillingState 0).1 1000⌋ : ℤ) : ℚ) } :=
  (claim_C1_amended cfgEx (startStreaming initBillingState 0).1 1000
    (SendOutcome.thrown "network error")
    (by norm_num [tickAccum, startStreaming, initBillingState]) trivial).1

/-- Claim C10 (confirmed): when a payment is attempted and the send
resolves non-Success or throws, the emitted tick has status `failed`, its
`totalPaidShannon` equals the pre-tick total plus the tick's amount, while
`getTotalPaid` still returns the pre-tick total. -/
theorem claim_C10_failed_tick_total (cfg : StreamingPaymentConfig) (st : BillingState)
    (now : ℚ) (send : SendOutcome) (hA : 0 < ⌊tickAccum st now⌋) (hf : sendFails send) :
    ∃ t, (processPaymentTick cfg st now send).2 = some t
      ∧ t.status = TickStatus.failed
      ∧ t.totalPaidShannon = st.totalPaid + t.amountShannon
      ∧ getTotalPaid (processPaymentTick cfg st now send).1 = st.totalPaid := by
  obtain ⟨hfst, t, ht, hstat, hamt, htot, _⟩ := processPaymentTick_fail cfg st now send hA hf
  refine ⟨t, ht, hstat, ?_, ?_⟩
  · rw [htot, hamt]
  · unfold getTotalPaid
    rw [hfst]

/-- Witness for C10: concrete failed tick. -/
theorem claim_C10_witness :
    ∃ t, (processPaymentTick cfgEx (startStreaming initBillingState 0).1 1000
        (SendOutcome.result "h1" "Failed" (some "no route"))).2 = some t
      ∧ t.status = TickStatus.failed
      ∧ t.totalPaidShannon = (startStreaming initBillingState 0).1.totalPaid + t.amountShannon
      ∧ getTotalPaid (processPaymentTick cfgEx (startStreaming initBillingState 0).1 1000
          (SendOutcome.result "h1" "Failed" (some "no route"))).1 =
        (startStreaming initBillingState 0).1.totalPaid :=
  claim_C10_failed_tick_total cfgEx (startStreaming initBillingState 0).1 1000
    (SendOutcome.result "h1" "Failed" (some "no route"))
    (by norm_num [tickAccum, startStreaming, initBillingState]) (by decide)

/-- Claim C4 (confirmed): `stopStreaming` on an inactive engine is a
no-op; on a streaming engine it clears the streaming flag and the timer,
runs exactly one final `processPaymentTick`, and when the accumulated time
at stop is under one second that final tick sends nothing and leaves
`totalPaid` unchanged. -/
theorem claim_C4_stop_flushes (cfg : StreamingPaymentConfig) (st : BillingState)
    (now : ℚ) (send : SendOutcome) :
    (st.isStreaming = false → stopStreaming cfg st now send = (st, none))
    ∧ (st.isStreaming = true →
        (stopStreaming cfg st now send).1.isStreaming = false
        ∧ (stopStreaming cfg st now send).1.intervalArmed = false
        ∧ stopStreaming cfg st now send =
            ({ (processPaymentTick cfg
                  { st with isStreaming := false, intervalArmed := false } now send).1
                with accumulatedSeconds := 0 },
             (processPaymentTick cfg
                { st with isStreaming := false, intervalArmed := false } now send).2)
        ∧ (tickAccum st now < 1 →
            (stopStreaming cfg st now send).2 = none
            ∧ (stopStreaming cfg st now send).1.totalPaid = st.totalPaid)) := by
  constructor
  · intro h
    simp [stopStreaming, h]
  · intro h
    have hstop : stopStreaming cfg st now send =
        ({ (processPaymentTick cfg
              { st with isStreaming := false, intervalArmed := false } now send).1
            with accumulatedSeconds := 0 },
         (processPaymentTick cfg
            { st with isStreaming := false, intervalArmed := false } now send).2) := by
      simp [stopStreaming, h]
    refine ⟨?_, ?_, hstop, ?_⟩
    · rw [hstop]
      exact (processPaymentTick_flags cfg
        { st with isStreaming := false, intervalArmed := false } now send).1
    · rw [hstop]
      exact (processPaymentTick_flags cfg
        { st with isStreaming := false, intervalArmed := false } now send).2
    · intro hlt
      have hA : ⌊tickAccum st now⌋ ≤ 0 := by
        have h1 : ⌊tickAccum st now⌋ < 1 :=
          Int.floor_lt.mpr (by exact_mod_cast hlt)
        omega
      have hskip := processPaymentTick_skip cfg
        { st with isStreaming := false, intervalArmed := false } now send hA
      rw [hstop, hskip]
      exact ⟨rfl, rfl⟩

/-- Witness for C4: no-op on the inactive initial state, and a mid-second
stop on a just-started engine flushes nothing. -/
theorem claim_C4_witness :
    stopStreaming cfgEx initBillingState 500 (SendOutcome.thrown "e") = (initBillingState, none)
    ∧ (stopStreaming cfgEx (startStreaming initBillingState 0).1 500
        (SendOutcome.thrown "e")).2 = none :=
  ⟨(claim_C4_stop_flushes cfgEx initBillingState 500 (SendOutcome.thrown "e")).1 rfl,
   (((claim_C4_stop_flushes cfgEx (startStreaming initBillingState 0).1 500
      (SendOutcome.thrown "e")).2 rfl).2.2.2
      (by norm_num [tickAccum, startStreaming, initBillingState])).1⟩

/-- Claim C3 counterexample: `startStreaming` issues no network calls at
all — in particular no dry-run probe — and activates the engine and arms
the timer even in a world where every probe fails (the separate
`checkPaymentRoute` method returns `false` for a failing probe). The
claim's "engine remains inactive when the probe fails" is therefore false
at this input. -/
theorem claim_C3_counterexample :
    (startStreaming initBillingState 0).2 = []
    ∧ (startStreaming initBillingState 0).1.isStreaming = true
    ∧ (startStreaming initBillingState 0).1.intervalArmed = true
    ∧ svcCheckPaymentRoute (SendOutcome.thrown "connection refused") = false := by
  refine ⟨?_, ?_, ?_, ?_⟩ <;> decide

/-- Claim C3 amended: `startStreaming` performs no route probe and never
fails with `NoRouteAvailable`: it issues no network calls, is a no-op when
already streaming, and otherwise unconditionally marks the engine
streaming with the timer armed. The dry-run probe exists only as the
separate `checkPaymentRoute` method, which `startStreaming` does not
invoke. -/
theorem claim_C3_amended (st : BillingState) (now : ℚ) :
    (startStreaming st now).2 = []
    ∧ (st.isStreaming = true → (startStreaming st now).1 = st)
    ∧ (st.isStreaming = false →
        (startStreaming st now).1 =
          { st with isStreaming := true, intervalArmed := true,
                    lastPaymentTime := now, accumulatedSeconds := 0 }) := by
  refine ⟨?_, ?_, ?_⟩
  · unfold startStreaming
    rcases h : st.isStreaming <;> simp [h]
  · intro h
    simp [startStreaming, h]
  · intro h
    simp [startStreaming, h]

/-- Witness for the amended C3 at the initial state. -/
theorem claim_C3_amended_witness :
    (startStreaming initBillingState 5000).2 = []
    ∧ (startStreaming initBillingState 5000).1 =
        { initBillingState with isStreaming := true, intervalArmed := true,
                                lastPaymentTime := 5000, accumulatedSeconds := 0 } :=
  ⟨(claim_C3_amended initBillingState 5000).1,
   (claim_C3_amended initBillingState 5000).2.2 rfl⟩

/-- Invalid configuration used for the C9 counterexample: negative rate
and negative interval. -/
def badCfgInput : StreamingPaymentConfigInput :=
  { rpcUrl := "http://127.0.0.1:8227"
    recipientPubkey := "03032b"
    ratePerSecond := -1
    paymentIntervalMs := some (-100)
    currency := none }

/-- Claim C9 counterexample: the constructor accepts a rate of −1 CKB/s
and an interval of −100 ms without any error — it is a total function
yielding a live configuration — and the engine built on it streams
normally, contradicting "no engine instance capable of streaming is
produced". -/
theorem claim_C9_counterexample :
    mkConfig badCfgInput =
      { rpcUrl := "http://127.0.0.1:8227", recipientPubkey := "03032b",
        ratePerSecond := -1, paymentIntervalMs := -100, currency := "Fibd" }
    ∧ (startStreaming initBillingState 0).1.isStreaming = true
    ∧ isActive (startStreaming initBillingState 0).1 = true := by
  refine ⟨?_, by decide, by decide⟩
  norm_num [mkConfig, badCfgInput]

/-- Claim C9 amended: the constructor validates nothing. Any rate
(including zero and negatives) is kept verbatim; an interval of 0 — or an
omitted one — is silently replaced by the 5000 ms default (JavaScript
`||` treats 0 as falsy) while a negative interval is kept; there is no
`InvalidConfig` error, and the engine streams regardless. -/
theorem claim_C9_amended (c : StreamingPaymentConfigInput) :
    (mkConfig c).ratePerSecond = c.ratePerSecond
    ∧ (mkConfig { c with paymentIntervalMs := some 0 }).paymentIntervalMs = 5000
    ∧ (mkConfig { c with paymentIntervalMs := none }).paymentIntervalMs = 5000
    ∧ (mkConfig { c with paymentIntervalMs := some (-100) }).paymentIntervalMs = -100
    ∧ (startStreaming initBillingState 0).1.isStreaming = true := by
  refine ⟨rfl, by simp [mkConfig], by simp [mkConfig], by norm_num [mkConfig], by decide⟩

/-!
## Channel lifecycle controller — `src/hooks/use-fiber-node.ts`

The hook's channel-setup state (React `useState`/`useRef` cells) is one
record; the confirmation poll loop of `setupChannel` is a function over a
list of per-iteration inputs, each carrying whether `cancelChannelSetup`
was invoked just before the iteration fired and what the awaited
`listChannels` call would observe (or that it threw). The `clientRef`
is assumed non-null throughout a setup attempt; its null check shares the
cancel branch in the source and is subsumed by the cancel flag here.
-/

/-- `ChannelStatus` union type of the hook. -/
inductive ChannelStatus where
  | idle
  | checking
  | noRoute
  | openingChannel
  | waitingConfirmation
  | ready
  | error
deriving DecidableEq, Repr

/-- One channel as the hook reads it: identifier, owning peer, the state
name string (`state.state_name`) and the local balance in shannon (the
source keeps the balance as a decimal string and converts with `BigInt`;
we keep the numeric value). -/
structure FiberChannel where
  channel_id : String
  peer_id : String
  state_name : String
  local_balance : ℤ
deriving DecidableEq, Repr

/-- Channel-setup state owned by the hook: status, error and diagnostic
fields, the elapsed-seconds display counter, the usable balance, the two
interval timers (`pollingRef`, `elapsedRef` — armed iff non-null) and the
`cancelledRef` flag. -/
structure HookState where
  channelStatus : ChannelStatus
  channelError : Option String
  channelStateName : Option String
  channelElapsed : ℤ
  availableBalance : ℤ
  pollingArmed : Bool
  elapsedArmed : Bool
  cancelled : Bool
deriving DecidableEq, Repr

/-- `cancelChannelSetup`: sets the cancel flag, clears both timers, and
resets status to `idle` with all diagnostic fields cleared. -/
def cancelChannelSetup (s : HookState) : HookState :=
  { s with cancelled := true
           pollingArmed := false
           elapsedArmed := false
           channelStatus := ChannelStatus.idle
           channelStateName := none
           channelElapsed := 0
           channelError := none }

/-- The `cleanup()` closure inside `setupChannel`: clears both timers. -/
def cleanupTimers (s : HookState) : HookState :=
  { s with pollingArmed := false, elapsedArmed := false }

/-- What one poll iteration's awaited `listChannels({ peer_id })` does:
either resolves with a channel list or throws. -/
inductive PollObs where
  | channels (cs : List FiberChannel)
  | rpcError (msg : String)
deriving DecidableEq, Repr

/-- Input to one poll iteration: whether `cancelChannelSetup` ran just
before this iteration fired, and the observation of the iteration's RPC. -/
structure PollInput where
  cancelBefore : Bool
  obs : PollObs
deriving DecidableEq, Repr

/-- `state.state_name` of the last listed channel, if any
(`channels[channels.length - 1]`). -/
def latestStateName (cs : List FiberChannel) : Option String :=
  cs.getLast?.map FiberChannel.state_name

/-- One iteration of the `poll` closure in `setupChannel`. Returns the
updated state, the updated attempt counter, `some b` when the iteration
resolved the promise with `b`, and the number of network calls issued.
The refresh `listChannels()` in the ready branch only repopulates the
displayed channel list; its result is not part of the modelled state but
it is counted as a call. -/
def pollStep (s : HookState) (attempts maxAttempts : ℕ) (obs : PollObs) :
    HookState × ℕ × Option Bool × ℕ :=
  if s.cancelled then (cleanupTimers s, attempts, some false, 0)
  else
    let attempts1 := attempts + 1
    let tryResult : HookState × Option Bool × ℕ :=
      match obs with
      | PollObs.rpcError _ => (s, none, 1)
      | PollObs.channels cs =>
        match cs.getLast? with
        | none => (s, none, 1)
        | some latest =>
          let s1 := { s with channelStateName := some latest.state_name }
          if latest.state_name = "ChannelReady" then
            (cleanupTimers { s1 with availableBalance := latest.local_balance
                                     channelStatus := ChannelStatus.ready
                                     channelStateName := none },
             some true, 2)
          else if latest.state_name = "Closed" then
            (cleanupTimers { s1 with channelError := some "Channel was closed unexpectedly"
                                     channelStatus := ChannelStatus.error
                                     channelStateName := none },
             some false, 1)
          else (s1, none, 1)
    match tryResult with
    | (s2, some b, calls) => (s2, attempts1, some b, calls)
    | (s2, none, calls) =>
      if attempts1 ≥ maxAttempts then
        let timeoutMsg : String :=
          "Channel opening timed out. It may still be pending on-chain — try checking the route again in a minute."
        (cleanupTimers { s2 with channelError := some timeoutMsg
                                 channelStatus := ChannelStatus.error
                                 channelStateName := none },
         attempts1, some false, calls)
      else (s2, attempts1, none, calls)

/-- Result of running the poll loop over a list of iteration inputs. -/
structure RunResult where
  ui : HookState
  attempts : ℕ
  resolved : Option Bool
  calls : ℕ
deriving DecidableEq, Repr

/-- Run the poll loop: each input first applies `cancelChannelSetup` when
the user cancelled since the previous iteration, then performs one
`pollStep`; the loop stops at the first resolving iteration and sums the
network calls. `resolved = none` means the given inputs ran out with the
promise still pending. -/
def runPoll (maxAttempts : ℕ) : HookState → ℕ → List PollInput → RunResult
  | s, attempts, [] => ⟨s, attempts, none, 0⟩
  | s, attempts, inp :: rest =>
    let s0 := if inp.cancelBefore then cancelChannelSetup s else s
    match pollStep s0 attempts maxAttempts inp.obs with
    | (s1, a1, some b, c) => ⟨s1, a1, some b, c⟩
    | (s1, a1, none, c) =>
      let r := runPoll maxAttempts s1 a1 rest
      ⟨r.ui, r.attempts, r.resolved, c + r.calls⟩

/-- `setupChannel` constants in the source: poll every 3 s, at most 200
attempts. -/
def hookMaxAttempts : ℕ := 200

def hookPollIntervalMs : ℕ := 3000

lemma runPoll_cancelled (maxA attempts : ℕ) (s : HookState) (hc : s.cancelled = true)
    (inp : PollInput) (rest : List PollInput) :
    runPoll maxA s attempts (inp :: rest) =
      ⟨cleanupTimers (if inp.cancelBefore then cancelChannelSetup s else s),
       attempts, some false, 0⟩ := by
  cases hb : inp.cancelBefore
  · simp [runPoll, hb, pollStep, hc]
  · simp [runPoll, hb, pollStep, cancelChannelSetup]

/-- Claim C5 (confirmed): cancelling during `waiting_confirmation` moves
the controller to `idle` immediately (well within one poll interval),
clears both timers and the diagnostic fields, and raises no error; every
subsequent poll iteration sees the cancel flag at its top, issues zero
network calls, resolves `false` at the first opportunity, and leaves the
state in `idle` with no error. -/
theorem claim_C5_cancel_clean (s : HookState)
    (_h : s.channelStatus = ChannelStatus.waitingConfirmation) :
    (cancelChannelSetup s).channelStatus = ChannelStatus.idle
    ∧ (cancelChannelSetup s).pollingArmed = false
    ∧ (cancelChannelSetup s).elapsedArmed = false
    ∧ (cancelChannelSetup s).channelStateName = none
    ∧ (cancelChannelSetup s).channelElapsed = 0
    ∧ (cancelChannelSetup s).channelError = none
    ∧ ∀ (maxA attempts : ℕ) (inputs : List PollInput),
        (runPoll maxA (cancelChannelSetup s) attempts inputs).calls = 0
        ∧ (runPoll maxA (cancelChannelSetup s) attempts inputs).ui.channelStatus =
            ChannelStatus.idle
        ∧ (runPoll maxA (cancelChannelSetup s) attempts inputs).ui.channelError = none
        ∧ (inputs ≠ [] →
            (runPoll maxA (cancelChannelSetup s) attempts inputs).resolved = some false) := by
  refine ⟨rfl, rfl, rfl, rfl, rfl, rfl, ?_⟩
  intro maxA attempts inputs
  cases inputs with
  | nil => exact ⟨rfl, rfl, rfl, fun hne => absurd rfl hne⟩
  | cons inp rest =>
    rw [runPoll_cancelled maxA attempts (cancelChannelSetup s) rfl inp rest]
    cases hb : inp.cancelBefore
    · simp [hb, cleanupTimers, cancelChannelSetup]
    · simp [hb, cleanupTimers, cancelChannelSetup]

/-- Concrete `waiting_confirmation` state right after a successful open
request: both timers armed, not cancelled, no error. -/
def hookWaitingState : HookState :=
  { channelStatus := ChannelStatus.waitingConfirmation
    channelError := none
    channelStateName := none
    channelElapsed := 0
    availableBalance := 0
    pollingArmed := true
    elapsedArmed := true
    cancelled := false }

/-- A still-transitioning new channel, used by witnesses. -/
def chPending : FiberChannel :=
  { channel_id := "ch-new", peer_id := "QmPeer", state_name := "AwaitingChannelReady",
    local_balance := 0 }

/-- The same channel observed as closed, used by witnesses. -/
def chClosed : FiberChannel :=
  { channel_id := "ch-new", peer_id := "QmPeer", state_name := "Closed",
    local_balance := 0 }

/-- Witness for C5: cancel from the concrete waiting state, then one more
poll iteration fires — zero network calls, still idle, resolves false. -/
theorem claim_C5_witness :
    (cancelChannelSetup hookWaitingState).channelStatus = ChannelStatus.idle
    ∧ (runPoll 200 (cancelChannelSetup hookWaitingState) 0
        [⟨false, PollObs.channels [chClosed]⟩]).calls = 0
    ∧ (runPoll 200 (cancelChannelSetup hookWaitingState) 0
        [⟨false, PollObs.channels [chClosed]⟩]).resolved = some false :=
  ⟨(claim_C5_cancel_clean hookWaitingState rfl).1,
   ((claim_C5_cancel_clean hookWaitingState rfl).2.2.2.2.2.2 200 0
      [⟨false, PollObs.channels [chClosed]⟩]).1,
   ((claim_C5_cancel_clean hookWaitingState rfl).2.2.2.2.2.2 200 0
      [⟨false, PollObs.channels [chClosed]⟩]).2.2.2 (by simp)⟩

/-- A poll observation that decides nothing: the RPC threw, or the latest
listed channel (if any) is neither `ChannelReady` nor `Closed`. -/
def nonDecisiveObs (obs : PollObs) : Prop :=
  match obs with
  | PollObs.rpcError _ => True
  | PollObs.channels cs =>
      latestStateName cs ≠ some "ChannelReady" ∧ latestStateName cs ≠ some "Closed"

/-- Claim C6 (confirmed): while the attempt bound is not yet reached, if
no iteration before it was cancelled or decisive and then an iteration
observes the polled channel in remote state `Closed`, the controller
resolves `false` in the `error` status with the unexpectedly-closed
message — and in particular never ends `ready` under that observation
sequence. -/
theorem claim_C6_closed_never_ready (maxA : ℕ) (s : HookState) (attempts : ℕ)
    (pre rest : List PollInput) (cs : List FiberChannel)
    (hc : s.cancelled = false)
    (hpre : ∀ p ∈ pre, p.cancelBefore = false ∧ nonDecisiveObs p.obs)
    (hclosed : latestStateName cs = some "Closed")
    (hbound : attempts + pre.length < maxA) :
    (runPoll maxA s attempts
        (pre ++ PollInput.mk false (PollObs.channels cs) :: rest)).resolved = some false
    ∧ (runPoll maxA s attempts
        (pre ++ PollInput.mk false (PollObs.channels cs) :: rest)).ui.channelStatus =
        ChannelStatus.error
    ∧ (runPoll maxA s attempts
        (pre ++ PollInput.mk false (PollObs.channels cs) :: rest)).ui.channelError =
        some "Channel was closed unexpectedly"
    ∧ (runPoll maxA s attempts
        (pre ++ PollInput.mk false (PollObs.channels cs) :: rest)).ui.channelStatus ≠
        ChannelStatus.ready := by
  unfold latestStateName at hclosed
  induction pre generalizing s attempts with
  | nil =>
    obtain ⟨latest, hl, hname⟩ := Option.map_eq_some'.mp hclosed
    have hcr : ¬ (latest.state_name = "ChannelReady") := by
      rw [hname]; decide
    simp [runPoll, pollStep, hc, hl, hname, cleanupTimers]
  | cons p pre' ih =>
    obtain ⟨hpb, hnd⟩ := hpre p (List.mem_cons_self p pre')
    have hpre' : ∀ q ∈ pre', q.cancelBefore = false ∧ nonDecisiveObs q.obs :=
      fun q hq => hpre q (List.mem_cons_of_mem p hq)
    have hnotimeout : ¬ (attempts + 1 ≥ maxA) := by
      simp only [List.length_cons] at hbound
      omega
    have hbound' : attempts + 1 + pre'.length < maxA := by
      simp only [List.length_cons] at hbound
      omega
    cases p with
    | mk cb obs =>
      simp only at hpb
      subst hpb
      cases obs with
      | rpcError m =>
        have hstep : runPoll maxA s attempts
            ((PollInput.mk false (PollObs.rpcError m) :: pre') ++
              PollInput.mk false (PollObs.channels cs) :: rest) =
            ⟨(runPoll maxA s (attempts + 1)
                (pre' ++ PollInput.mk false (PollObs.channels cs) :: rest)).ui,
             (runPoll maxA s (attempts + 1)
                (pre' ++ PollInput.mk false (PollObs.channels cs) :: rest)).attempts,
             (runPoll maxA s (attempts + 1)
                (pre' ++ PollInput.mk false (PollObs.channels cs) :: rest)).resolved,
             1 + (runPoll maxA s (attempts + 1)
                (pre' ++ PollInput.mk false (PollObs.channels cs) :: rest)).calls⟩ := by
          simp [runPoll, pollStep, hc, hnotimeout]
        rw [hstep]
        exact ih s (attempts + 1) hc hpre' hbound'
      | channels cs' =>
        obtain ⟨hnr, hncl⟩ := hnd
        cases hgl : cs'.getLast? with
        | none =>
          have hstep : runPoll maxA s attempts
              ((PollInput.mk false (PollObs.channels cs') :: pre') ++
                PollInput.mk false (PollObs.channels cs) :: rest) =
              ⟨(runPoll maxA s (attempts + 1)
                  (pre' ++ PollInput.mk false (PollObs.channels cs) :: rest)).ui,
               (runPoll maxA s (attempts + 1)
                  (pre' ++ PollInput.mk false (PollObs.channels cs) :: rest)).attempts,
               (runPoll maxA s (attempts + 1)
                  (pre' ++ PollInput.mk false (PollObs.channels cs) :: rest)).resolved,
               1 + (runPoll maxA s (attempts + 1)
                  (pre' ++ PollInput.mk false (PollObs.channels cs) :: rest)).calls⟩ := by
            simp [runPoll, pollStep, hc, hnotimeout, hgl]
          rw [hstep]
          exact ih s (attempts + 1) hc hpre' hbound'
        | some latest =>
          have hlr : ¬ (latest.state_name = "ChannelReady") := by
            intro hx
            exact hnr (by rw [latestStateName, hgl, Option.map_some', hx])
          have hlc : ¬ (latest.state_name = "Closed") := by
            intro hx
            exact hncl (by rw [latestStateName, hgl, Option.map_some', hx])
          have hstep : runPoll maxA s attempts
              ((PollInput.mk false (PollObs.channels cs') :: pre') ++
                PollInput.mk false (PollObs.channels cs) :: rest) =
              ⟨(runPoll maxA { s with channelStateName := some latest.state_name }
                  (attempts + 1)
                  (pre' ++ PollInput.mk false (PollObs.channels cs) :: rest)).ui,
               (runPoll maxA { s with channelStateName := some latest.state_name }
                  (attempts + 1)
                  (pre' ++ PollInput.mk false (PollObs.channels cs) :: rest)).attempts,
               (runPoll maxA { s with channelStateName := some latest.state_name }
                  (attempts + 1)
                  (pre' ++ PollInput.mk false (PollObs.channels cs) :: rest)).resolved,
               1 + (runPoll maxA { s with channelStateName := some latest.state_name }
                  (attempts + 1)
                  (pre' ++ PollInput.mk false (PollObs.channels cs) :: rest)).calls⟩ := by
            simp [runPoll, pollStep, hc, hnotimeout, hgl, hlr, hlc]
          rw [hstep]
          exact ih { s with channelStateName := some latest.state_name }
            (attempts + 1) hc hpre' hbound'

/-- Witness for C6: one non-decisive observation, then the channel is
seen `Closed`; the run ends in `error` with the expected message. -/
theorem claim_C6_witness :
    (runPoll 200 hookWaitingState 0
        ([PollInput.mk false (PollObs.channels [chPending])] ++
          PollInput.mk false (PollObs.channels [chClosed]) :: [])).ui.channelStatus =
      ChannelStatus.error
    ∧ (runPoll 200 hookWaitingState 0
        ([PollInput.mk false (PollObs.channels [chPending])] ++
          PollInput.mk false (PollObs.channels [chClosed]) :: [])).ui.channelError =
      some "Channel was closed unexpectedly" := by
  have h := claim_C6_closed_never_ready 200 hookWaitingState 0
    [PollInput.mk false (PollObs.channels [chPending])] [] [chClosed] rfl
    (by
      intro p hp
      simp only [List.mem_singleton] at hp
      subst hp
      exact ⟨rfl, by decide, by decide⟩)
    (by decide) (by decide)
  exact ⟨h.2.1, h.2.2.1⟩

/-!
## Channel lifecycle controller — alternative revision of the hook

The repository also contains a second revision of `useFiberNode` (an
unnamed source file) whose `checkPaymentRoute` first looks for a direct
ready channel to the recipient before consulting the dry-run probe, and
whose `setupChannel` snapshots the channel identifiers existing before
the open request and restricts the readiness/closure decisions of its
poll loop to channels outside that snapshot. Definitions for this
revision carry the `p4` prefix-style naming. That revision pairs with
the SDK-based `fiber-rpc` module whose `ChannelState` enum values are
`"CHANNEL_READY"` and `"CLOSED"`, and whose client normalizes pubkeys
(trim, drop a leading `0x`, lowercase) before comparing. -/

/-- A peer as `listPeers` returns it to this revision: libp2p peer id
plus the node pubkey from the graph. -/
structure P4Peer where
  peer_id : String
  pubkey : String
deriving DecidableEq, Repr

/-- `normalizePubkey` of the SDK-based client:
`pubkey.trim().replace(/^0x/i, '').toLowerCase()`. -/
def normalizePubkey (s : String) : String :=
  let t := s.trim
  let u := if t.startsWith "0x" || t.startsWith "0X" then t.drop 2 else t
  u.toLower

/-- The gateway data this revision's route check reads: the peer list,
the full channel list, and the outcome of the dry-run `sendPayment`
probe, were it issued. -/
structure P4Gateway where
  peers : List P4Peer
  channels : List FiberChannel
  probe : SendOutcome
deriving DecidableEq, Repr

/-- `listChannels` of the gateway, with the optional `peer_id` filter
applied server-side. -/
def p4ListChannels (gw : P4Gateway) (peerFilter : Option String) : List FiberChannel :=
  match peerFilter with
  | some pid => gw.channels.filter (fun ch => ch.peer_id == pid)
  | none => gw.channels

/-- `findPeerIdByPubkey`: one `listPeers` call, then the first peer whose
normalized pubkey matches the normalized target. -/
def p4FindPeerIdByPubkey (gw : P4Gateway) (pubkey : String) : Option String :=
  (gw.peers.find? (fun p => normalizePubkey p.pubkey == normalizePubkey pubkey)).map
    P4Peer.peer_id

/-- `findChannelToPeer`: one `listChannels({ peer_id })` call, then the
first channel that is `CHANNEL_READY` with a positive local balance. -/
def p4FindChannelToPeer (gw : P4Gateway) (peerId : String) : Option FiberChannel :=
  (p4ListChannels gw (some peerId)).find?
    (fun ch => ch.state_name == "CHANNEL_READY" && decide (0 < ch.local_balance))

/-- Mutable channel-setup state of this revision: a single 1 Hz elapsed
ticker (`channelTimerRef`) beside the status/diagnostic fields. -/
structure P4State where
  channelStatus : ChannelStatus
  channelError : Option String
  channelStateName : Option String
  channelElapsed : ℤ
  availableBalance : ℤ
  timerArmed : Bool
  cancelled : Bool
deriving DecidableEq, Repr

/-- The guidance message this revision sets in the no-route case. -/
def p4NoRouteMsg : String :=
  "No payment route to recipient. Click \"Open Channel\" to create a direct channel."

/-- `checkPaymentRoute` of this revision: enter `checking` and clear the
diagnostics, look up the recipient's peer id and a direct usable channel;
when one exists report `ready` with that channel's balance and return
without probing. Only otherwise run the dry-run probe; on probe success
sum the balances of all `CHANNEL_READY` channels and report `ready`, on
probe failure report `no_route`, and on a thrown probe report `error`
(the client's pubkey-format validation throw is folded into the thrown
probe outcome). Returns the new state, the boolean result, and the RPC
calls issued. -/
def p4CheckRoute (gw : P4Gateway) (pubkey : String) (s : P4State) :
    P4State × Bool × List RpcCall :=
  let s0 : P4State :=
    { s with channelStatus := ChannelStatus.checking
             channelError := none
             channelStateName := none
             channelElapsed := 0
             timerArmed := false }
  match p4FindPeerIdByPubkey gw pubkey with
  | some pid =>
    match p4FindChannelToPeer gw pid with
    | some ch =>
      ({ s0 with availableBalance := ch.local_balance
                 channelStatus := ChannelStatus.ready },
       true,
       [RpcCall.listPeers, RpcCall.listChannelsPeer pid])
    | none =>
      match gw.probe with
      | SendOutcome.thrown m =>
        ({ s0 with channelError := some m, channelStatus := ChannelStatus.error },
         false,
         [RpcCall.listPeers, RpcCall.listChannelsPeer pid, RpcCall.sendPaymentDryRun])
      | SendOutcome.result _ status _ =>
        if status != "Failed" then
          ({ s0 with
              availableBalance :=
                ((gw.channels.filter (fun ch => ch.state_name == "CHANNEL_READY")).map
                  FiberChannel.local_balance).sum
              channelStatus := ChannelStatus.ready },
           true,
           [RpcCall.listPeers, RpcCall.listChannelsPeer pid, RpcCall.sendPaymentDryRun,
            RpcCall.listChannelsAll])
        else
          ({ s0 with channelStatus := ChannelStatus.noRoute
                     channelError := some p4NoRouteMsg },
           false,
           [RpcCall.listPeers, RpcCall.listChannelsPeer pid, RpcCall.sendPaymentDryRun])
  | none =>
    match gw.probe with
    | SendOutcome.thrown m =>
      ({ s0 with channelError := some m, channelStatus := ChannelStatus.error },
       false,
       [RpcCall.listPeers, RpcCall.sendPaymentDryRun])
    | SendOutcome.result _ status _ =>
      if status != "Failed" then
        ({ s0 with
            availableBalance :=
              ((gw.channels.filter (fun ch => ch.state_name == "CHANNEL_READY")).map
                FiberChannel.local_balance).sum
            channelStatus := ChannelStatus.ready },
         true,
         [RpcCall.listPeers, RpcCall.sendPaymentDryRun, RpcCall.listChannelsAll])
      else
        ({ s0 with channelStatus := ChannelStatus.noRoute
                   channelError := some p4NoRouteMsg },
         false,
         [RpcCall.listPeers, RpcCall.sendPaymentDryRun])

/-- Claim C7 (confirmed, `p4` revision of `checkPaymentRoute`): when a
direct usable (`CHANNEL_READY`, positive balance) channel to the
recipient exists, the route check reports `ready` with that channel's
balance and never issues the dry-run probe; conversely the probe is
issued only when the direct-channel lookup comes up empty. -/
theorem claim_C7_direct_channel_no_probe (gw : P4Gateway) (pubkey : String) (s : P4State) :
    (∀ pid ch, p4FindPeerIdByPubkey gw pubkey = some pid →
        p4FindChannelToPeer gw pid = some ch →
          (p4CheckRoute gw pubkey s).1.channelStatus = ChannelStatus.ready
          ∧ (p4CheckRoute gw pubkey s).1.availableBalance = ch.local_balance
          ∧ (p4CheckRoute gw pubkey s).2.1 = true
          ∧ RpcCall.sendPaymentDryRun ∉ (p4CheckRoute gw pubkey s).2.2)
    ∧ (RpcCall.sendPaymentDryRun ∈ (p4CheckRoute gw pubkey s).2.2 →
        (p4FindPeerIdByPubkey gw pubkey).bind (fun pid => p4FindChannelToPeer gw pid) = none) := by
  constructor
  · intro pid ch h1 h2
    simp [p4CheckRoute, h1, h2]
  · intro hmem
    cases hp : p4FindPeerIdByPubkey gw pubkey with
    | none => rfl
    | some pid =>
      cases hcx : p4FindChannelToPeer gw pid with
      | none => exact hcx
      | some ch =>
        rw [p4CheckRoute] at hmem
        simp only [hp, hcx] at hmem
        simp at hmem

/-- Gateway with a direct ready channel to the recipient; the probe would
throw if it were ever consulted. -/
def gwEx : P4Gateway :=
  { peers := [{ peer_id := "QmPeer", pubkey := "03ab" }]
    channels := [{ channel_id := "ch1", peer_id := "QmPeer",
                   state_name := "CHANNEL_READY", local_balance := 5000 }]
    probe := SendOutcome.thrown "probe must not run" }

/-- Initial idle state of the `p4` controller. -/
def p4IdleState : P4State :=
  { channelStatus := ChannelStatus.idle
    channelError := none
    channelStateName := none
    channelElapsed := 0
    availableBalance := 0
    timerArmed := false
    cancelled := false }

/-- Witness for C7 on the concrete gateway. -/
theorem claim_C7_witness :
    (p4CheckRoute gwEx "03ab" p4IdleState).1.channelStatus = ChannelStatus.ready
    ∧ (p4CheckRoute gwEx "03ab" p4IdleState).1.availableBalance = 5000
    ∧ (p4CheckRoute gwEx "03ab" p4IdleState).2.1 = true
    ∧ RpcCall.sendPaymentDryRun ∉ (p4CheckRoute gwEx "03ab" p4IdleState).2.2 := by
  have h1 : p4FindPeerIdByPubkey gwEx "03ab" = some "QmPeer" := by
    simp [p4FindPeerIdByPubkey, gwEx, List.find?]
  have h2 : p4FindChannelToPeer gwEx "QmPeer" =
      some { channel_id := "ch1", peer_id := "QmPeer",
             state_name := "CHANNEL_READY", local_balance := 5000 } := by
    simp [p4FindChannelToPeer, p4ListChannels, gwEx, List.find?, List.filter]
  exact (claim_C7_direct_channel_no_probe gwEx "03ab" p4IdleState).1 "QmPeer" _ h1 h2

/-- Substring test, used by the catch-handler's error classifier:
`pat` occurs in `s` iff splitting on it yields more than one piece. -/
def strContains (s pat : String) : Bool :=
  2 ≤ (s.splitOn pat).length

/-- The catch handler of this revision's `setupChannel`: lowercases the
message and classifies it into peer-unreachable, insufficient-funds, or a
generic failure message. -/
def p4ClassifyError (msg : String) : String :=
  let n := msg.toLower
  if strContains n "peer not connected" || strContains n "not in your peer list" then
    "Cannot open channel: Peer not connected. The recipient node may be offline or unreachable. Try connecting to the peer first using their full address."
  else if strContains n "insufficient" || strContains n "balance" || strContains n "fund" then
    "Cannot open channel: Insufficient funds. Make sure your node has enough CKB to fund the channel."
  else
    "Failed to open channel: " ++ msg

/-- `cancelChannelSetup` of this revision. -/
def p4Cancel (s : P4State) : P4State :=
  { s with cancelled := true
           timerArmed := false
           channelStatus := ChannelStatus.idle
           channelError := none
           channelStateName := none
           channelElapsed := 0 }

/-- The set (as a list) of channel identifiers existing before the open
request: `new Set(channelsBefore.channels.map((c) => c.channel_id))`. -/
def p4Snapshot (channelsBefore : List FiberChannel) : List String :=
  channelsBefore.map FiberChannel.channel_id

/-- Channels of the polled peer: `channels.filter(c => c.peer_id === peerId)`. -/
def p4PeerChannels (peerId : String) (cs : List FiberChannel) : List FiberChannel :=
  cs.filter (fun ch => ch.peer_id == peerId)

/-- The polled peer's channels that are not in the pre-open snapshot:
`peerChannels.filter(c => !existingChannelIds.has(c.channel_id))`. -/
def p4NewPeerChannels (existing : List String) (peerId : String)
    (cs : List FiberChannel) : List FiberChannel :=
  (p4PeerChannels peerId cs).filter (fun ch => !(existing.contains ch.channel_id))

/-- Input to one iteration of this revision's poll loop: whether the user
cancelled since the previous iteration, and the channel list the
iteration's `listChannels()` observes. -/
structure P4Iter where
  cancelBefore : Bool
  cs : List FiberChannel
deriving DecidableEq, Repr

/-- Terminal outcome of the poll loop, carrying the channel that drove
the decision where applicable. `pending` is the model artifact for an
input list that ends before the loop decides. -/
inductive P4Outcome where
  | ready (ch : FiberChannel)
  | closedError (ch : FiberChannel)
  | timeout
  | cancelled
  | pending
deriving DecidableEq, Repr

/-- The confirmation poll loop of this revision's `setupChannel`
(`for i in 0..<maxAttempts`): check the loop bound, then the cancel flag,
sleep, re-list channels, restrict to the polled peer and (for decisions)
to channels outside the pre-open snapshot; update the diagnostic state
name from the most interesting channel (preferring a still-transitioning
new channel, then the newest new channel, then the same over all peer
channels); resolve `ready` on a new `CHANNEL_READY` channel (its balance
recorded; the extra refresh `listChannels` is counted), throw — classified
by the catch handler — on a new `CLOSED` channel, and otherwise continue.
Exhausting the bound throws the timeout error, also classified. Returns
the final state, the outcome, and the number of `listChannels` calls
made. -/
def p4PollLoop (existing : List String) (peerId : String) (maxA : ℕ) :
    P4State → ℕ → List P4Iter → P4State × P4Outcome × ℕ
  | s, i, [] =>
    if i ≥ maxA then
      ({ s with timerArmed := false
                channelError := some (p4ClassifyError
                  "Channel opening timed out. The channel may still be pending on-chain confirmation.")
                channelStatus := ChannelStatus.error },
       P4Outcome.timeout, 0)
    else (s, P4Outcome.pending, 0)
  | s, i, it :: rest =>
    if i ≥ maxA then
      ({ s with timerArmed := false
                channelError := some (p4ClassifyError
                  "Channel opening timed out. The channel may still be pending on-chain confirmation.")
                channelStatus := ChannelStatus.error },
       P4Outcome.timeout, 0)
    else
      let s0 := if it.cancelBefore then p4Cancel s else s
      if s0.cancelled then
        ({ s0 with timerArmed := false
                   channelStatus := ChannelStatus.idle
                   channelStateName := none
                   channelElapsed := 0 },
         P4Outcome.cancelled, 0)
      else
        let peerChannels := p4PeerChannels peerId it.cs
        let newPeerChannels := p4NewPeerChannels existing peerId it.cs
        let activeChannel :=
          (newPeerChannels.find? (fun ch => !(ch.state_name == "CHANNEL_READY"))).orElse
            (fun _ => (newPeerChannels.getLast?).orElse
              (fun _ =>
                (peerChannels.find? (fun ch => !(ch.state_name == "CHANNEL_READY"))).orElse
                  (fun _ => peerChannels.getLast?)))
        let s1 :=
          match activeChannel with
          | some ch =>
            if ch.state_name == "" then s0
            else { s0 with channelStateName := some ch.state_name }
          | none => s0
        match newPeerChannels.find? (fun ch => ch.state_name == "CHANNEL_READY") with
        | some readyCh =>
          ({ s1 with timerArmed := false
                     availableBalance := readyCh.local_balance
                     channelStateName := some readyCh.state_name
                     channelStatus := ChannelStatus.ready },
           P4Outcome.ready readyCh, 2)
        | none =>
          match newPeerChannels.find? (fun ch => ch.state_name == "CLOSED") with
          | some failedCh =>
            ({ s1 with channelStateName := some failedCh.state_name
                       timerArmed := false
                       channelError := some (p4ClassifyError "Channel was closed unexpectedly")
                       channelStatus := ChannelStatus.error },
             P4Outcome.closedError failedCh, 1)
          | none =>
            let r := p4PollLoop existing peerId maxA s1 (i + 1) rest
            (r.1, r.2.1, 1 + r.2.2)

lemma find?_newPeerChannels (existing : List String) (peerId : String)
    (cs : List FiberChannel) (pred : FiberChannel → Bool) (ch : FiberChannel)
    (h : (p4NewPeerChannels existing peerId cs).find? pred = some ch) :
    ch.peer_id = peerId ∧ existing.contains ch.channel_id = false ∧ pred ch = true := by
  have hmem := List.mem_of_find?_eq_some h
  have hpred := List.find?_some h
  unfold p4NewPeerChannels p4PeerChannels at hmem
  have h1 := List.mem_filter.mp hmem
  have h2 := List.mem_filter.mp h1.1
  refine ⟨?_, ?_, hpred⟩
  · exact eq_of_beq h2.2
  · simpa using h1.2

lemma not_in_snapshot (before : List FiberChannel) (cid : String)
    (h : (p4Snapshot before).contains cid = false) :
    ∀ b ∈ before, b.channel_id ≠ cid := by
  intro b hb heq
  have hmem : cid ∈ p4Snapshot before :=
    List.mem_map.mpr ⟨b, hb, heq⟩
  have := List.elem_eq_true_of_mem hmem
  rw [List.contains] at h
  rw [h] at this
  exact Bool.false_ne_true this

lemma p4PollLoop_decision_not_existing (existing : List String) (peerId : String)
    (maxA : ℕ) :
    ∀ (inputs : List P4Iter) (s : P4State) (i : ℕ),
      (∀ ch, (p4PollLoop existing peerId maxA s i inputs).2.1 = P4Outcome.ready ch →
          ch.peer_id = peerId ∧ existing.contains ch.channel_id = false
          ∧ ch.state_name = "CHANNEL_READY")
      ∧ (∀ ch, (p4PollLoop existing peerId maxA s i inputs).2.1 = P4Outcome.closedError ch →
          ch.peer_id = peerId ∧ existing.contains ch.channel_id = false
          ∧ ch.state_name = "CLOSED") := by
  intro inputs
  induction inputs with
  | nil =>
    intro s i
    constructor <;> intro ch h <;>
      (simp only [p4PollLoop] at h; split at h <;> simp at h)
  | cons it rest ih =>
    intro s i
    constructor <;> intro ch h <;>
      simp only [p4PollLoop] at h <;>
      by_cases him : i ≥ maxA
    · simp only [if_pos him] at h
      simp at h
    · simp only [if_neg him] at h
      by_cases hcanc : (if it.cancelBefore then p4Cancel s else s).cancelled = true
      · simp only [if_pos hcanc] at h
        simp at h
      · simp only [if_neg hcanc] at h
        cases hfr : (p4NewPeerChannels existing peerId it.cs).find?
            (fun ch => ch.state_name == "CHANNEL_READY") with
        | some readyCh =>
          rw [hfr] at h
          simp at h
          obtain rfl := h.symm
          obtain ⟨hp, hcont, hpred⟩ := find?_newPeerChannels existing peerId it.cs _ ch hfr
          exact ⟨hp, hcont, eq_of_beq hpred⟩
        | none =>
          rw [hfr] at h
          cases hfc : (p4NewPeerChannels existing peerId it.cs).find?
              (fun ch => ch.state_name == "CLOSED") with
          | some failedCh =>
            rw [hfc] at h
            simp at h
          | none =>
            rw [hfc] at h
            simp only at h
            exact ((ih _ _).1 ch h)
    · simp only [if_pos him] at h
      simp at h
    · simp only [if_neg him] at h
      by_cases hcanc : (if it.cancelBefore then p4Cancel s else s).cancelled = true
      · simp only [if_pos hcanc] at h
        simp at h
      · simp only [if_neg hcanc] at h
        cases hfr : (p4NewPeerChannels existing peerId it.cs).find?
            (fun ch => ch.state_name == "CHANNEL_READY") with
        | some readyCh =>
          rw [hfr] at h
          simp at h
        | none =>
          rw [hfr] at h
          cases hfc : (p4NewPeerChannels existing peerId it.cs).find?
              (fun ch => ch.state_name == "CLOSED") with
          | some failedCh =>
            rw [hfc] at h
            simp at h
            obtain rfl := h.symm
            obtain ⟨hp, hcont, hpred⟩ := find?_newPeerChannels existing peerId it.cs _ ch hfc
            exact ⟨hp, hcont, eq_of_beq hpred⟩
          | none =>
            rw [hfc] at h
            simp only at h
            exact ((ih _ _).2 ch h)

/-- Claim C8 (confirmed, `p4` revision of `setupChannel`): with the
pre-open snapshot of channel identifiers as the exclusion set, any
channel that drives the poll loop's transition to `ready` (or to the
closed-unexpectedly error) belongs to the polled peer, is not any channel
that existed before the open request, and is in the corresponding remote
state — a pre-existing channel to the same peer never drives either
transition. -/
theorem claim_C8_snapshot_restricts (before : List FiberChannel) (peerId : String)
    (maxA : ℕ) (s : P4State) (i : ℕ) (inputs : List P4Iter) :
    (∀ ch, (p4PollLoop (p4Snapshot before) peerId maxA s i inputs).2.1 =
        P4Outcome.ready ch →
        ch.peer_id = peerId
        ∧ (∀ b ∈ before, b.channel_id ≠ ch.channel_id)
        ∧ ch.state_name = "CHANNEL_READY")
    ∧ (∀ ch, (p4PollLoop (p4Snapshot before) peerId maxA s i inputs).2.1 =
        P4Outcome.closedError ch →
        ch.peer_id = peerId
        ∧ (∀ b ∈ before, b.channel_id ≠ ch.channel_id)
        ∧ ch.state_name = "CLOSED") := by
  have hmain := p4PollLoop_decision_not_existing (p4Snapshot before) peerId maxA inputs s i
  constructor
  · intro ch h
    obtain ⟨hp, hcont, hst⟩ := hmain.1 ch h
    exact ⟨hp, not_in_snapshot before ch.channel_id hcont, hst⟩
  · intro ch h
    obtain ⟨hp, hcont, hst⟩ := hmain.2 ch h
    exact ⟨hp, not_in_snapshot before ch.channel_id hcont, hst⟩

/-- A channel to the peer that existed before the open request, already
ready — it must never drive the transition. -/
def chOld : FiberChannel :=
  { channel_id := "ch-old", peer_id := "QmPeer",
    state_name := "CHANNEL_READY", local_balance := 7000 }

/-- The newly created channel that becomes ready. -/
def chNew : FiberChannel :=
  { channel_id := "ch-new2", peer_id := "QmPeer",
    state_name := "CHANNEL_READY", local_balance := 100 }

/-- `waiting_confirmation` state of the `p4` controller with the elapsed
ticker running. -/
def p4WaitingState : P4State :=
  { channelStatus := ChannelStatus.waitingConfirmation
    channelError := none
    channelStateName := none
    channelElapsed := 0
    availableBalance := 0
    timerArmed := true
    cancelled := false }

/-- Witness for C8: with `chOld` in the pre-open snapshot, a poll that
sees both `chOld` (ready, pre-existing) and `chNew` (ready, new) resolves
`ready` driven by `chNew`, and the theorem certifies that channel is not
any pre-existing one. -/
theorem claim_C8_witness :
    chNew.peer_id = "QmPeer"
    ∧ (∀ b ∈ [chOld], b.channel_id ≠ chNew.channel_id)
    ∧ chNew.state_name = "CHANNEL_READY" :=
  (claim_C8_snapshot_restricts [chOld] "QmPeer" 100 p4WaitingState 0
    [{ cancelBefore := false, cs := [chOld, chNew] }]).1 chNew (by decide)
